import Mathlib

/-
Formal model of the state-representation core of the control-libraries
repository (C++), shallowly embedded in Lean 4.

Modelling conventions:
  * C++ doubles are modelled as rationals; no floating-point rounding is
    modelled.  Claims that depend only on exact field routing, guard order
    and error behaviour are unaffected by this choice.
  * Thrown C++ exceptions are modelled by the Except monad with the error
    enumeration SRError; a function that can throw returns Except.
  * The creation timestamp of a State is not modelled: no claim treated
    here mentions it.
  * std::string is String, Eigen vectors are List Rat, unsigned int is Nat.
-/

namespace StateRep

/-- Closed enumeration of concrete state kinds (StateType.hpp); the listed
values are the ones that occur in the sources. -/
inductive StateType where
  | STATE
  | SPATIAL_STATE
  | CARTESIAN_STATE
  | CARTESIAN_POSE
  | CARTESIAN_TWIST
  | CARTESIAN_ACCELERATION
  | CARTESIAN_WRENCH
  | JOINT_STATE
  | JOINTSTATE
  | GEOMETRY_SHAPE
  | GEOMETRY_ELLIPSOID
  | PARAMETER
  deriving DecidableEq, Repr

/-- Error taxonomy of the library (exceptions directory).  The
JointNotFound error carries its message so that statements about the
offending joint name can be made; the C++ message wraps the name in single
quotes, which are omitted here. -/
inductive SRError where
  | emptyState
  | incompatibleStates
  | incompatibleSize
  | jointNotFound (msg : String)
  | invalidCast
  | notImplemented
  deriving DecidableEq, Repr

/-- Base State (State.cpp): a type tag, a name and the filled/empty flag. -/
structure State where
  type : StateType
  name : String
  empty : Bool
  deriving DecidableEq, Repr

/-- State.cpp lines 84 to 86: the base-class is_incompatible returns false
for every argument, unconditionally. -/
def State.is_incompatible (_s _other : State) : Bool :=
  false

/-- Modelled from the spec: State.hpp is not under src; per the spec,
is_incompatible is the logical negation of is_compatible, so is_compatible
is the negation of the (source-given) is_incompatible. -/
def State.is_compatible (s other : State) : Bool :=
  !(s.is_incompatible other)

/-- SpatialState (SpatialState.cpp): adds a reference frame. -/
structure SpatialState where
  type : StateType
  name : String
  reference_frame : String
  empty : Bool
  deriving DecidableEq, Repr

/-- SpatialState.cpp lines 29 to 42: two spatial states are incompatible
when the name of this differs from the reference frame of the other, the
reference frame of this differs from the name of the other, and the two
reference frames differ. -/
def SpatialState.is_incompatible (s other : SpatialState) : Bool :=
  (s.name != other.reference_frame) && (s.reference_frame != other.name)
    && (s.reference_frame != other.reference_frame)

/-- Modelled from the spec: is_compatible is the logical negation of
is_incompatible (the header is not under src). -/
def SpatialState.is_compatible (s other : SpatialState) : Bool :=
  !(s.is_incompatible other)

/-- Selector enumeration for the joint-state fields (JointStateVariable). -/
inductive JointStateVariable where
  | POSITIONS
  | VELOCITIES
  | ACCELERATIONS
  | TORQUES
  | ALL
  deriving DecidableEq, Repr

/-- JointState (space/joint/JointState.cpp): a named list of joints and
four co-sized numeric fields. -/
structure JointState where
  type : StateType
  name : String
  empty : Bool
  names : List String
  positions : List ℚ
  velocities : List ℚ
  accelerations : List ℚ
  torques : List ℚ
  deriving DecidableEq, Repr

/-- JointState.cpp line 66: the size is the length of the name list. -/
def JointState.get_size (js : JointState) : Nat :=
  js.names.length

/-- JointState.cpp lines 142 to 152: default joint names joint0, joint1, ... -/
def defaultJointNames (nb : Nat) : List String :=
  (List.range nb).map (fun i => "joint" ++ toString i)

/-- JointState.cpp lines 28 to 31: name-list constructor; it leaves the
state empty and (via the inlined body of the private member that resizes
the fields) zeroes all four fields at the size of the name list. -/
def JointState.mkNamed (robot_name : String) (joint_names : List String) : JointState :=
  { type := .JOINT_STATE, name := robot_name, empty := true, names := joint_names,
    positions := List.replicate joint_names.length 0,
    velocities := List.replicate joint_names.length 0,
    accelerations := List.replicate joint_names.length 0,
    torques := List.replicate joint_names.length 0 }

/-- JointState.cpp lines 22 to 26: size constructor; set_names generates
the default names before the fields are resized and zeroed. -/
def JointState.mkSized (robot_name : String) (nb_joints : Nat) : JointState :=
  JointState.mkNamed robot_name (defaultJointNames nb_joints)

/-- Modelled from the spec: set_filled (State.hpp is not under src) clears
the empty flag, as the comment in JointState::Zero describes. -/
def JointState.set_filled (js : JointState) : JointState :=
  { js with empty := false }

/-- JointState.cpp lines 32 to 37: Zero builds the state from the size
constructor and then marks it filled. -/
def JointState.Zero (robot_name : String) (nb_joints : Nat) : JointState :=
  (JointState.mkSized robot_name nb_joints).set_filled

/-- JointState.cpp lines 39 to 44: Zero from an explicit name list. -/
def JointState.ZeroNamed (robot_name : String) (joint_names : List String) : JointState :=
  (JointState.mkNamed robot_name joint_names).set_filled

/-- Modelled from the spec: the aggregated 4N data vector (JointState.hpp
is not under src) concatenates positions, velocities, accelerations and
torques in that order. -/
def JointState.get_all_state_variables (js : JointState) : List ℚ :=
  js.positions ++ js.velocities ++ js.accelerations ++ js.torques

/-- Modelled from the spec: the field selected by a JointStateVariable. -/
def JointState.get_state_variable (js : JointState) : JointStateVariable → List ℚ
  | .POSITIONS => js.positions
  | .VELOCITIES => js.velocities
  | .ACCELERATIONS => js.accelerations
  | .TORQUES => js.torques
  | .ALL => js.get_all_state_variables

/-- Modelled from the spec: writing the field selected by a
JointStateVariable marks the state filled; for ALL the 4N vector is split
into four contiguous segments of the state size.  The embedded call sites
always pass a vector of the selected field length. -/
def JointState.set_state_variable (js : JointState) (v : List ℚ) :
    JointStateVariable → JointState
  | .POSITIONS => { js with positions := v, empty := false }
  | .VELOCITIES => { js with velocities := v, empty := false }
  | .ACCELERATIONS => { js with accelerations := v, empty := false }
  | .TORQUES => { js with torques := v, empty := false }
  | .ALL =>
      let n := js.get_size
      { js with
        empty := false
        positions := v.take n
        velocities := (v.drop n).take n
        accelerations := (v.drop (2 * n)).take n
        torques := (v.drop (3 * n)).take n }

/-- Modelled from the spec: set_all_state_variables writes the 4N vector. -/
def JointState.set_all_state_variables (js : JointState) (v : List ℚ) : JointState :=
  js.set_state_variable v .ALL

/-- Base-State view of a JointState, used by the qualified base-class call
inside JointState::is_compatible. -/
def JointState.base (js : JointState) : State :=
  ⟨js.type, js.name, js.empty⟩

/-- Index loop of JointState::is_compatible lines 336 to 340: every name
at every index below the common size must agree. -/
def namesMatch (a b : List String) : Bool :=
  (List.range a.length).all (fun i => a.getD i "" == b.getD i "")

/-- JointState.cpp lines 333 to 342: base compatibility, then equal sizes,
then the index-by-index name comparison. -/
def JointState.is_compatible (js other : JointState) : Bool :=
  let compatible := (js.base.is_compatible other.base)
    && (js.names.length == other.names.length)
  if compatible then compatible && namesMatch js.names other.names else compatible

/-- JointState.cpp lines 379 to 385: scalar in-place scaling guards on
emptiness and scales the whole 4N data vector. -/
def JointState.mulScalarAssign (js : JointState) (lambda : ℚ) : Except SRError JointState :=
  if js.empty then .error .emptyState
  else .ok (js.set_all_state_variables (js.get_all_state_variables.map (fun x => lambda * x)))

/-- JointState.cpp lines 434 to 436: division delegates to multiplication
by the reciprocal, with no zero guard.  With doubles the reciprocal of
zero is infinite; with rationals it is zero; either way no error is
raised. -/
def JointState.divScalarAssign (js : JointState) (lambda : ℚ) : Except SRError JointState :=
  js.mulScalarAssign (1 / lambda)

/-- JointState.cpp lines 356 to 365: the array-gain multiply checks only
the operand size, never emptiness. -/
def JointState.multiplyStateVariableArray (js : JointState) (lambda : List ℚ)
    (svt : JointStateVariable) : Except SRError JointState :=
  let sv := js.get_state_variable svt
  if lambda.length ≠ sv.length then .error .incompatibleSize
  else .ok (js.set_state_variable (List.zipWith (fun a x => a * x) lambda sv) svt)

/-- Row and column counts of a dense matrix modelled as a list of rows. -/
def matRows (m : List (List ℚ)) : Nat :=
  m.length

/-- Column count, read off the first row. -/
def matCols (m : List (List ℚ)) : Nat :=
  (m.headD []).length

/-- Dense matrix-vector product. -/
def matVec (m : List (List ℚ)) (v : List ℚ) : List ℚ :=
  m.map (fun row => (List.zipWith (fun a x => a * x) row v).sum)

/-- JointState.cpp lines 367 to 377: the matrix-gain multiply checks only
that the gain is square of the selected size, never emptiness. -/
def JointState.multiplyStateVariableMatrix (js : JointState) (lambda : List (List ℚ))
    (svt : JointStateVariable) : Except SRError JointState :=
  let sv := js.get_state_variable svt
  if matRows lambda ≠ sv.length ∨ matCols lambda ≠ sv.length then .error .incompatibleSize
  else .ok (js.set_state_variable (matVec lambda sv) svt)

/-- JointState.cpp lines 400 to 403: in-place matrix gain applies to ALL. -/
def JointState.mulMatrixAssign (js : JointState) (lambda : List (List ℚ)) :
    Except SRError JointState :=
  js.multiplyStateVariableMatrix lambda .ALL

/-- JointState.cpp lines 417 to 420: in-place array gain applies to ALL. -/
def JointState.mulArrayAssign (js : JointState) (lambda : List ℚ) :
    Except SRError JointState :=
  js.multiplyStateVariableArray lambda .ALL

/-- JointState.cpp lines 444 to 459: addition guards on the emptiness of
this, then of the other operand, then on compatibility, then adds the 4N
data vectors. -/
def JointState.addAssign (js other : JointState) : Except SRError JointState :=
  if js.empty then .error .emptyState
  else if other.empty then .error .emptyState
  else if !(js.is_compatible other) then .error .incompatibleStates
  else .ok (js.set_all_state_variables
    (List.zipWith (fun a b => a + b) js.get_all_state_variables other.get_all_state_variables))

/-- JointState.cpp lines 467 to 482: subtraction, same guards as addition. -/
def JointState.subAssign (js other : JointState) : Except SRError JointState :=
  if js.empty then .error .emptyState
  else if other.empty then .error .emptyState
  else if !(js.is_compatible other) then .error .incompatibleStates
  else .ok (js.set_all_state_variables
    (List.zipWith (fun a b => a - b) js.get_all_state_variables other.get_all_state_variables))

/-- JointState.cpp lines 291 to 315: dist guards on the emptiness of both
operands and on compatibility, then sums the Euclidean norms of the
per-field differences over the selected fields.  The Euclidean norm uses a
real square root, so the embedding is parametric in the norm function; the
guards and the field selection are the source code verbatim. -/
def JointState.dist (norm : List ℚ → ℚ) (js other : JointState)
    (svt : JointStateVariable) : Except SRError ℚ :=
  if js.empty then .error .emptyState
  else if other.empty then .error .emptyState
  else if !(js.is_compatible other) then .error .incompatibleStates
  else
    let d1 := if svt = .POSITIONS ∨ svt = .ALL then
      norm (List.zipWith (fun a b => a - b) js.positions other.positions) else 0
    let d2 := if svt = .VELOCITIES ∨ svt = .ALL then
      norm (List.zipWith (fun a b => a - b) js.velocities other.velocities) else 0
    let d3 := if svt = .ACCELERATIONS ∨ svt = .ALL then
      norm (List.zipWith (fun a b => a - b) js.accelerations other.accelerations) else 0
    let d4 := if svt = .TORQUES ∨ svt = .ALL then
      norm (List.zipWith (fun a b => a - b) js.torques other.torques) else 0
    .ok (d1 + d2 + d3 + d4)

/-- Loop body of JointState::clamp_state_variable lines 264 to 272: dead
zone first (only for a nonzero noise ratio), then clamp to the maximum
magnitude by rescaling. -/
def clampElem (maxAbs noise x : ℚ) : ℚ :=
  if noise ≠ 0 ∧ |x| < noise * maxAbs then 0
  else if |x| > maxAbs then x * (maxAbs / |x|)
  else x

/-- Element-wise clamp over three co-indexed lists. -/
def clampVec : List ℚ → List ℚ → List ℚ → List ℚ
  | mx :: ms, nz :: ns, x :: xs => clampElem mx nz x :: clampVec ms ns xs
  | _, _, _ => []

/-- JointState.cpp lines 247 to 274: array clamp; both argument arrays
must match the selected field length, else IncompatibleSize. -/
def JointState.clampStateVariableArray (js : JointState) (maxArr : List ℚ)
    (svt : JointStateVariable) (noiseArr : List ℚ) : Except SRError JointState :=
  let sv := js.get_state_variable svt
  if maxArr.length ≠ sv.length then .error .incompatibleSize
  else if noiseArr.length ≠ sv.length then .error .incompatibleSize
  else .ok (js.set_state_variable (clampVec maxArr noiseArr sv) svt)

/-- JointState.cpp lines 276 to 284: scalar clamp delegates to the array
clamp with constant arrays of the selected field length. -/
def JointState.clampStateVariable (js : JointState) (maxAbs : ℚ)
    (svt : JointStateVariable) (noise : ℚ) : Except SRError JointState :=
  let sv := js.get_state_variable svt
  js.clampStateVariableArray (List.replicate sv.length maxAbs) svt
    (List.replicate sv.length noise)

/-- JointState.cpp lines 11 to 16: the bounds assertion fails only for an
index strictly greater than the size (note: an index equal to the size
passes). -/
def assertIndexInRange (joint_index size : Nat) : Except SRError Unit :=
  if joint_index > size then
    .error (.jointNotFound ("Index " ++ toString joint_index
      ++ " is out of range for joint state with size" ++ toString size))
  else .ok ()

/-- JointState.cpp lines 74 to 80: linear search over the names; a miss
raises JointNotFound carrying the offending name in its message. -/
def JointState.getJointIndex (js : JointState) (joint_name : String) : Except SRError Nat :=
  match js.names.findIdx? (fun n => n == joint_name) with
  | some i => .ok i
  | none => .error (.jointNotFound ("The joint with name " ++ joint_name
      ++ " could not be found in the joint state."))

/-- JointState.cpp lines 90 to 93: index read of a position.  When the
index equals the size the assertion passes and the C++ coefficient read is
past the end of the field (undefined behaviour); the model returns none
there. -/
def JointState.getPositionAt (js : JointState) (joint_index : Nat) :
    Except SRError (Option ℚ) :=
  match assertIndexInRange joint_index js.get_size with
  | .error e => .error e
  | .ok _ => .ok js.positions[joint_index]?

/-- JointState.cpp lines 103 to 106: index read of a velocity. -/
def JointState.getVelocityAt (js : JointState) (joint_index : Nat) :
    Except SRError (Option ℚ) :=
  match assertIndexInRange joint_index js.get_size with
  | .error e => .error e
  | .ok _ => .ok js.velocities[joint_index]?

/-- JointState.cpp lines 116 to 119: index read of an acceleration. -/
def JointState.getAccelerationAt (js : JointState) (joint_index : Nat) :
    Except SRError (Option ℚ) :=
  match assertIndexInRange joint_index js.get_size with
  | .error e => .error e
  | .ok _ => .ok js.accelerations[joint_index]?

/-- JointState.cpp lines 129 to 132: index read of a torque. -/
def JointState.getTorqueAt (js : JointState) (joint_index : Nat) :
    Except SRError (Option ℚ) :=
  match assertIndexInRange joint_index js.get_size with
  | .error e => .error e
  | .ok _ => .ok js.torques[joint_index]?

/-- JointState.cpp lines 176 to 180: index write of a position marks the
state filled.  A write at an index equal to the size is past the end in
C++ (undefined behaviour); List.set leaves the list unchanged there. -/
def JointState.setPositionAt (js : JointState) (position : ℚ) (joint_index : Nat) :
    Except SRError JointState :=
  match assertIndexInRange joint_index js.get_size with
  | .error e => .error e
  | .ok _ => .ok { js with empty := false, positions := js.positions.set joint_index position }

/-- JointState.cpp lines 195 to 199: index write of a velocity. -/
def JointState.setVelocityAt (js : JointState) (velocity : ℚ) (joint_index : Nat) :
    Except SRError JointState :=
  match assertIndexInRange joint_index js.get_size with
  | .error e => .error e
  | .ok _ => .ok { js with empty := false, velocities := js.velocities.set joint_index velocity }

/-- JointState.cpp lines 214 to 218: index write of an acceleration. -/
def JointState.setAccelerationAt (js : JointState) (acceleration : ℚ) (joint_index : Nat) :
    Except SRError JointState :=
  match assertIndexInRange joint_index js.get_size with
  | .error e => .error e
  | .ok _ =>
      .ok { js with empty := false, accelerations := js.accelerations.set joint_index acceleration }

/-- JointState.cpp lines 233 to 237: index write of a torque. -/
def JointState.setTorqueAt (js : JointState) (torque : ℚ) (joint_index : Nat) :
    Except SRError JointState :=
  match assertIndexInRange joint_index js.get_size with
  | .error e => .error e
  | .ok _ => .ok { js with empty := false, torques := js.torques.set joint_index torque }

/-- Recognizer for the JointNotFound error, of any message. -/
def Except.isJNF {α : Type} : Except SRError α → Bool
  | .error (.jointNotFound _) => true
  | _ => false

/-- Success recognizer for Except results. -/
def isOkE {α : Type} : Except SRError α → Bool
  | .ok _ => true
  | .error _ => false

/-- The index loop comparing co-sized name lists succeeds exactly on equal
lists. -/
theorem namesMatch_iff (a b : List String) (h : a.length = b.length) :
    namesMatch a b = true ↔ a = b := by
  unfold namesMatch
  rw [List.all_eq_true]
  constructor
  · intro H
    apply List.ext_getElem h
    intro i h1 h2
    have hi := H i (List.mem_range.mpr h1)
    rw [beq_iff_eq] at hi
    rwa [List.getD_eq_getElem, List.getD_eq_getElem] at hi
  · rintro rfl i _
    simp

/-- JointState compatibility holds exactly on identical name lists (same
length and same names in the same order). -/
theorem is_compatible_iff_names_eq (a b : JointState) :
    a.is_compatible b = true ↔ a.names = b.names := by
  unfold JointState.is_compatible
  simp only [State.is_compatible, State.is_incompatible, Bool.not_false, Bool.true_and]
  by_cases h : a.names.length = b.names.length
  · simp only [h, beq_self_eq_true, if_pos, Bool.true_and]
    exact namesMatch_iff a.names b.names h
  · have hb : (a.names.length == b.names.length) = false := by
      exact beq_eq_false_iff_ne.mpr h
    simp only [hb, Bool.false_eq_true, if_false]
    constructor
    · intro hfalse
      exact absurd hfalse (by simp)
    · intro heq
      exact absurd (congrArg List.length heq) h

/-- C3: the binary + and - on two non-empty JointStates raise
IncompatibleStates exactly when the two joint-name lists are not identical
in size and element order. -/
theorem joint_state_add_sub_require_identical_name_lists :
    ∀ A B : JointState, A.empty = false → B.empty = false →
      ((A.addAssign B = .error .incompatibleStates) ↔ A.names ≠ B.names)
      ∧ ((A.subAssign B = .error .incompatibleStates) ↔ A.names ≠ B.names) := by
  intro A B hA hB
  by_cases h : A.names = B.names
  · have hc : A.is_compatible B = true := (is_compatible_iff_names_eq A B).mpr h
    constructor
    · simp [JointState.addAssign, hA, hB, hc, h]
    · simp [JointState.subAssign, hA, hB, hc, h]
  · have hc : A.is_compatible B = false :=
      Bool.eq_false_iff.mpr (fun hh => h ((is_compatible_iff_names_eq A B).mp hh))
    constructor
    · simp [JointState.addAssign, hA, hB, hc, h]
    · simp [JointState.subAssign, hA, hB, hc, h]

/-- C3 witness: two non-empty states whose name lists hold the same names
in different order fail with IncompatibleStates on addition. -/
theorem joint_state_add_sub_require_identical_name_lists_witness :
    (JointState.ZeroNamed "robot" ["j1", "j2"]).empty = false
    ∧ (JointState.ZeroNamed "robot" ["j2", "j1"]).empty = false
    ∧ (JointState.ZeroNamed "robot" ["j1", "j2"]).addAssign
        (JointState.ZeroNamed "robot" ["j2", "j1"]) = .error .incompatibleStates :=
  ⟨rfl, rfl,
    ((joint_state_add_sub_require_identical_name_lists _ _ rfl rfl).1).mpr (by decide)⟩

/-- C10: the Zero factories return a filled state with all four fields
zero at the requested size, while the plain constructors return an empty
state; scalar arithmetic fails with EmptyState on a freshly constructed
state and succeeds on a Zero state. -/
theorem joint_state_zero_vs_constructor :
    ∀ (robot_name : String) (nb : Nat) (joint_names : List String) (lambda : ℚ),
      (JointState.Zero robot_name nb).empty = false
      ∧ (JointState.Zero robot_name nb).positions = List.replicate nb 0
      ∧ (JointState.Zero robot_name nb).velocities = List.replicate nb 0
      ∧ (JointState.Zero robot_name nb).accelerations = List.replicate nb 0
      ∧ (JointState.Zero robot_name nb).torques = List.replicate nb 0
      ∧ (JointState.ZeroNamed robot_name joint_names).empty = false
      ∧ (JointState.ZeroNamed robot_name joint_names).positions
          = List.replicate joint_names.length 0
      ∧ (JointState.ZeroNamed robot_name joint_names).velocities
          = List.replicate joint_names.length 0
      ∧ (JointState.ZeroNamed robot_name joint_names).accelerations
          = List.replicate joint_names.length 0
      ∧ (JointState.ZeroNamed robot_name joint_names).torques
          = List.replicate joint_names.length 0
      ∧ (JointState.mkSized robot_name nb).empty = true
      ∧ (JointState.mkNamed robot_name joint_names).empty = true
      ∧ (JointState.mkSized robot_name nb).mulScalarAssign lambda = .error .emptyState
      ∧ (JointState.mkNamed robot_name joint_names).mulScalarAssign lambda
          = .error .emptyState
      ∧ isOkE ((JointState.Zero robot_name nb).mulScalarAssign lambda) = true := by
  intro robot_name nb joint_names lambda
  refine ⟨rfl, ?_, ?_, ?_, ?_, rfl, rfl, rfl, rfl, rfl, rfl, rfl, rfl, rfl, rfl⟩
  all_goals
    simp [JointState.Zero, JointState.set_filled, JointState.mkSized, JointState.mkNamed,
      defaultJointNames]

/-- C8 counterexample: dividing a concrete non-empty JointState by the
zero scalar raises no error at all; the operator returns a state (whose
fields were scaled by the reciprocal of zero). -/
theorem divide_by_zero_scalar_counterexample :
    (JointState.Zero "robot" 1).empty = false
    ∧ isOkE ((JointState.Zero "robot" 1).divScalarAssign 0) = true :=
  ⟨rfl, rfl⟩

/-- C8 amended: scalar division performs no zero check; it only guards on
emptiness (EmptyState on an empty operand) and otherwise multiplies by the
reciprocal of the scalar, succeeding even for a zero divisor, where IEEE
doubles silently produce non-finite values. -/
theorem divide_by_zero_scalar_behaviour :
    ∀ (js : JointState) (lambda : ℚ),
      (js.empty = true → js.divScalarAssign lambda = .error .emptyState)
      ∧ (js.empty = false → isOkE (js.divScalarAssign lambda) = true) := by
  intro js lambda
  constructor <;> intro h <;>
    simp [JointState.divScalarAssign, JointState.mulScalarAssign, h, isOkE]

/-- C8 witness: the non-empty branch at a concrete state and zero divisor. -/
theorem divide_by_zero_scalar_behaviour_witness :
    (JointState.Zero "arm" 2).empty = false
    ∧ isOkE ((JointState.Zero "arm" 2).divScalarAssign 0) = true :=
  ⟨rfl, (divide_by_zero_scalar_behaviour (JointState.Zero "arm" 2) 0).2 rfl⟩

/-- A find over a list yields no index exactly when no element satisfies
the predicate. -/
theorem findIdx?_none_iff {α : Type} (p : α → Bool) :
    ∀ l : List α, l.findIdx? p = none ↔ ∀ x ∈ l, p x = false := by
  intro l
  induction l with
  | nil => simp
  | cons a t ih =>
      by_cases hpa : p a
      · simp [List.findIdx?_cons, hpa]
      · simp [List.findIdx?_cons, hpa, Option.map_eq_none, ih]

/-- C6: every index-based accessor and setter raises JointNotFound exactly
when the index is strictly greater than the size (so an index equal to the
size passes the bounds assertion), and the name-based lookup raises
JointNotFound carrying the offending name exactly when the name is absent
from the name list. -/
theorem joint_index_bounds_and_lookup :
    (∀ i n : Nat, Except.isJNF (assertIndexInRange i n) = decide (i > n))
    ∧ (∀ (js : JointState) (i : Nat),
        Except.isJNF (js.getPositionAt i) = decide (i > js.get_size)
        ∧ Except.isJNF (js.getVelocityAt i) = decide (i > js.get_size)
        ∧ Except.isJNF (js.getAccelerationAt i) = decide (i > js.get_size)
        ∧ Except.isJNF (js.getTorqueAt i) = decide (i > js.get_size))
    ∧ (∀ (js : JointState) (v : ℚ) (i : Nat),
        Except.isJNF (js.setPositionAt v i) = decide (i > js.get_size)
        ∧ Except.isJNF (js.setVelocityAt v i) = decide (i > js.get_size)
        ∧ Except.isJNF (js.setAccelerationAt v i) = decide (i > js.get_size)
        ∧ Except.isJNF (js.setTorqueAt v i) = decide (i > js.get_size))
    ∧ (∀ (js : JointState) (nm : String),
        js.getJointIndex nm = .error (.jointNotFound ("The joint with name " ++ nm
          ++ " could not be found in the joint state.")) ↔ nm ∉ js.names) := by
  refine ⟨?_, ?_, ?_, ?_⟩
  · intro i n
    by_cases h : i > n <;> simp [assertIndexInRange, h, Except.isJNF]
  · intro js i
    by_cases h : i > js.get_size <;>
      refine ⟨?_, ?_, ?_, ?_⟩ <;>
        simp [JointState.getPositionAt, JointState.getVelocityAt,
          JointState.getAccelerationAt, JointState.getTorqueAt,
          assertIndexInRange, h, Except.isJNF]
  · intro js v i
    by_cases h : i > js.get_size <;>
      refine ⟨?_, ?_, ?_, ?_⟩ <;>
        simp [JointState.setPositionAt, JointState.setVelocityAt,
          JointState.setAccelerationAt, JointState.setTorqueAt,
          assertIndexInRange, h, Except.isJNF]
  · intro js nm
    constructor
    · intro H
      cases hf : js.names.findIdx? (fun n => n == nm) with
      | some i =>
          rw [JointState.getJointIndex, hf] at H
          exact absurd H (by simp)
      | none =>
          intro hmem
          have hx := (findIdx?_none_iff _ js.names).mp hf nm hmem
          simp at hx
    · intro hnot
      have hf : js.names.findIdx? (fun n => n == nm) = none :=
        (findIdx?_none_iff _ js.names).mpr
          (fun x hx => beq_eq_false_iff_ne.mpr (fun he => hnot (he ▸ hx)))
      rw [JointState.getJointIndex, hf]

/-- Class invariant of JointState: the four numeric fields are co-sized
to the name list.  Every constructor establishes it. -/
def JointState.wellFormed (js : JointState) : Prop :=
  js.positions.length = js.get_size ∧ js.velocities.length = js.get_size
    ∧ js.accelerations.length = js.get_size ∧ js.torques.length = js.get_size

instance (js : JointState) : Decidable js.wellFormed := by
  unfold JointState.wellFormed
  infer_instance

/-- Reduction of bind over a successful result. -/
theorem bindOkE {α β : Type} (a : α) (f : α → Except SRError β) :
    (Except.ok a : Except SRError α).bind f = f a :=
  rfl

/-- The clamp loop body is idempotent for a nonnegative maximum and a
noise ratio of at most one. -/
theorem clampElem_idem (m c x : ℚ) (hm : 0 ≤ m) (hc : c ≤ 1) :
    clampElem m c (clampElem m c x) = clampElem m c x := by
  by_cases h1 : c ≠ 0 ∧ |x| < c * m
  · have hx : clampElem m c x = 0 := by
      simp only [clampElem]
      rw [if_pos h1]
    rw [hx]
    have h0 : (0:ℚ) < c * m := lt_of_le_of_lt (abs_nonneg x) h1.2
    simp only [clampElem]
    rw [if_pos ⟨h1.1, by simpa using h0⟩]
  · by_cases h2 : |x| > m
    · have hx : clampElem m c x = x * (m / |x|) := by
        simp only [clampElem]
        rw [if_neg h1, if_pos h2]
      have hxne : |x| ≠ 0 := by
        intro habs
        rw [habs] at h2
        exact absurd h2 (not_lt.mpr hm)
      have hy : |x * (m / |x|)| = m := by
        rw [abs_mul, abs_div, abs_abs, abs_of_nonneg hm]
        field_simp
      have hnd : ¬(c ≠ 0 ∧ |x * (m / |x|)| < c * m) := by
        rintro ⟨-, hlt⟩
        rw [hy] at hlt
        exact absurd hlt (not_lt.mpr (mul_le_of_le_one_left hm hc))
      have hnc : ¬(|x * (m / |x|)| > m) := by
        rw [hy]
        exact lt_irrefl m
      rw [hx]
      simp only [clampElem]
      rw [if_neg hnd, if_neg hnc]
    · have hx : clampElem m c x = x := by
        simp only [clampElem]
        rw [if_neg h1, if_neg h2]
      rw [hx]
      exact hx

/-- Clamping against constant arrays is an element-wise map of the loop
body. -/
theorem clampVec_replicate_map (m c : ℚ) (v : List ℚ) :
    clampVec (List.replicate v.length m) (List.replicate v.length c) v
      = v.map (clampElem m c) := by
  induction v with
  | nil => rfl
  | cons x xs ih =>
      simp only [List.length_cons, List.replicate_succ, clampVec, List.map_cons]
      rw [ih]

/-- A list of length 4n is recovered from its four n-segments. -/
theorem take_drop_concat (w : List ℚ) (n : Nat) (hl : w.length = 4 * n) :
    w.take n ++ (w.drop n).take n ++ (w.drop (2 * n)).take n ++ (w.drop (3 * n)).take n
      = w := by
  have e2 : (w.drop n).drop n = w.drop (2 * n) := by
    rw [List.drop_drop]
    congr 1
    ring
  have e3 : (w.drop (2 * n)).drop n = w.drop (3 * n) := by
    rw [List.drop_drop]
    congr 1
    ring
  have e4 : (w.drop (3 * n)).take n = w.drop (3 * n) :=
    List.take_of_length_le (by rw [List.length_drop, hl]; omega)
  rw [e4, ← e3, ← e2, List.append_assoc, List.take_append_drop, List.append_assoc,
    List.take_append_drop, List.take_append_drop]

/-- Reading a selected state variable directly after writing it returns
the written vector, for a well-formed state and a correctly sized write. -/
theorem get_set_same (js : JointState) (w : List ℚ) (svt : JointStateVariable)
    (hw : w.length = (js.get_state_variable svt).length) (hwf : js.wellFormed) :
    (js.set_state_variable w svt).get_state_variable svt = w := by
  obtain ⟨hp, hv, ha, ht⟩ := hwf
  cases svt
  case POSITIONS => rfl
  case VELOCITIES => rfl
  case ACCELERATIONS => rfl
  case TORQUES => rfl
  case ALL =>
    have hl : w.length = 4 * js.get_size := by
      simp only [JointState.get_state_variable, JointState.get_all_state_variables,
        List.length_append] at hw
      omega
    simp only [JointState.set_state_variable, JointState.get_state_variable,
      JointState.get_all_state_variables]
    exact take_drop_concat w js.get_size hl

/-- Writing the same vector twice to the same selected state variable is
the same as writing it once. -/
theorem set_set_same (js : JointState) (v : List ℚ) (svt : JointStateVariable) :
    (js.set_state_variable v svt).set_state_variable v svt = js.set_state_variable v svt := by
  cases svt <;> rfl

/-- C7 counterexample: with a noise ratio above one the clamp is not
idempotent: the state with the single position 5, clamped to maximum 1
with noise ratio 2, clamps to 1 on the first application and then falls
into the dead zone and becomes 0 on the second. -/
theorem clamp_idempotence_counterexample :
    (JointState.mk .JOINT_STATE "robot" false ["joint0"] [5] [0] [0] [0]).empty = false
    ∧ ((JointState.mk .JOINT_STATE "robot" false ["joint0"] [5] [0] [0] [0]).clampStateVariable
          1 .POSITIONS 2).bind
        (fun r => r.clampStateVariable 1 .POSITIONS 2)
      ≠ (JointState.mk .JOINT_STATE "robot" false ["joint0"] [5] [0] [0] [0]).clampStateVariable
          1 .POSITIONS 2 := by
  refine ⟨rfl, ?_⟩
  have c1 : clampElem 1 2 (5:ℚ) = 1 := by
    have ha : |(5:ℚ)| = 5 := abs_of_nonneg (by norm_num)
    simp only [clampElem, ha]
    norm_num
  have c2 : clampElem 1 2 (1:ℚ) = 0 := by
    have ha : |(1:ℚ)| = 1 := abs_of_nonneg (by norm_num)
    simp only [clampElem, ha]
    norm_num
  have h1 : (JointState.mk .JOINT_STATE "robot" false ["joint0"] [5] [0] [0]
        [0]).clampStateVariable 1 .POSITIONS 2
      = .ok (JointState.mk .JOINT_STATE "robot" false ["joint0"] [1] [0] [0] [0]) := by
    simp [JointState.clampStateVariable, JointState.clampStateVariableArray,
      JointState.get_state_variable, JointState.set_state_variable, clampVec, c1]
  have h2 : (JointState.mk .JOINT_STATE "robot" false ["joint0"] [1] [0] [0]
        [0]).clampStateVariable 1 .POSITIONS 2
      = .ok (JointState.mk .JOINT_STATE "robot" false ["joint0"] [0] [0] [0] [0]) := by
    simp [JointState.clampStateVariable, JointState.clampStateVariableArray,
      JointState.get_state_variable, JointState.set_state_variable, clampVec, c2]
  intro hEq
  rw [h1, bindOkE, h2] at hEq
  exact absurd (Except.ok.inj hEq) (by simp)

/-- C7 amended: for the space/joint JointState clamp, applying
clamp_state_variable twice with the same arguments equals applying it once
whenever the maximum absolute value is nonnegative and the noise ratio is
at most one (for a well-formed state). -/
theorem clamp_state_variable_idempotent :
    ∀ (js : JointState) (maxAbs noise : ℚ) (svt : JointStateVariable),
      js.wellFormed → 0 ≤ maxAbs → noise ≤ 1 →
      (js.clampStateVariable maxAbs svt noise).bind
          (fun r => r.clampStateVariable maxAbs svt noise)
        = js.clampStateVariable maxAbs svt noise := by
  intro js m c svt hwf hm hc
  have happly : ∀ k : JointState, k.clampStateVariable m svt c
      = .ok (k.set_state_variable ((k.get_state_variable svt).map (clampElem m c)) svt) := by
    intro k
    unfold JointState.clampStateVariable JointState.clampStateVariableArray
    simp [clampVec_replicate_map]
  rw [happly js, bindOkE, happly]
  congr 1
  have hget : (js.set_state_variable ((js.get_state_variable svt).map (clampElem m c))
        svt).get_state_variable svt
      = (js.get_state_variable svt).map (clampElem m c) :=
    get_set_same js _ svt (by simp) hwf
  have hmap : List.map (clampElem m c ∘ clampElem m c) (js.get_state_variable svt)
      = List.map (clampElem m c) (js.get_state_variable svt) :=
    List.map_congr_left (fun a _ => clampElem_idem m c a hm hc)
  rw [hget, List.map_map, hmap]
  exact set_set_same js _ svt

/-- C7 witness: the amended idempotence at a concrete state, maximum 1 and
noise ratio 0. -/
theorem clamp_state_variable_idempotent_witness :
    (JointState.mk .JOINT_STATE "arm" false ["joint0"] [5] [0] [0] [0]).wellFormed
    ∧ (((JointState.mk .JOINT_STATE "arm" false ["joint0"] [5] [0] [0] [0]).clampStateVariable
          1 .POSITIONS 0).bind
        (fun r => r.clampStateVariable 1 .POSITIONS 0)
      = (JointState.mk .JOINT_STATE "arm" false ["joint0"] [5] [0] [0] [0]).clampStateVariable
          1 .POSITIONS 0) :=
  ⟨by decide,
    clamp_state_variable_idempotent (JointState.mk .JOINT_STATE "arm" false
        ["joint0"] [5] [0] [0] [0]) 1 0 .POSITIONS (by decide) (by norm_num) (by norm_num)⟩

/-- Numeric 3-vector. -/
structure V3 where
  x : ℚ
  y : ℚ
  z : ℚ
  deriving DecidableEq, Repr

/-- Componentwise scalar division (Eigen vector divided by a double). -/
def V3.divScalar (v : V3) (s : ℚ) : V3 :=
  ⟨v.x / s, v.y / s, v.z / s⟩

/-- Componentwise scalar multiple. -/
def V3.scale (c : ℚ) (v : V3) : V3 :=
  ⟨c * v.x, c * v.y, c * v.z⟩

/-- Quaternion with scalar part w and vector part (x, y, z). -/
structure Quat where
  w : ℚ
  x : ℚ
  y : ℚ
  z : ℚ
  deriving DecidableEq, Repr

/-- Four-component dot product of two quaternions. -/
def Quat.dot (p q : Quat) : ℚ :=
  p.w * q.w + p.x * q.x + p.y * q.y + p.z * q.z

/-- Negation of all four coefficients. -/
def Quat.negCoeffs (q : Quat) : Quat :=
  ⟨-q.w, -q.x, -q.y, -q.z⟩

/-- Vector part of a quaternion. -/
def Quat.vec (q : Quat) : V3 :=
  ⟨q.x, q.y, q.z⟩

/-- CartesianPose (CartesianPose.cpp): the fields its duration division
reads.  The full CartesianState record holds further kinematic fields that
the modelled operation never touches (its class definition is not under
src). -/
structure CartesianPose where
  name : String
  reference_frame : String
  empty : Bool
  position : V3
  orientation : Quat
  deriving DecidableEq, Repr

/-- CartesianTwist: the fields produced by the duration division of a
pose. -/
structure CartesianTwist where
  name : String
  reference_frame : String
  empty : Bool
  linear_velocity : V3
  angular_velocity : V3
  deriving DecidableEq, Repr

/-- Modelled from the spec: the CartesianTwist name/frame constructor
(class header not under src) creates an empty twist with zero data. -/
def CartesianTwist.mkEmpty (name reference_frame : String) : CartesianTwist :=
  ⟨name, reference_frame, true, ⟨0, 0, 0⟩, ⟨0, 0, 0⟩⟩

/-- Modelled from the spec: setting the linear velocity marks the state
filled. -/
def CartesianTwist.set_linear_velocity (t : CartesianTwist) (v : V3) : CartesianTwist :=
  { t with linear_velocity := v, empty := false }

/-- Modelled from the spec: setting the angular velocity marks the state
filled. -/
def CartesianTwist.set_angular_velocity (t : CartesianTwist) (v : V3) : CartesianTwist :=
  { t with angular_velocity := v, empty := false }

/-- CartesianPose.cpp lines 154 to 173: division of a pose by a time
duration.  The duration arrives as a nanosecond count and is converted to
seconds; the linear velocity is the position divided by the period; the
angular velocity is twice the vector part of the (sign-disambiguated)
quaternion logarithm of the orientation divided by the period.  The
quaternion logarithm lives in math_tools, which is not under src, so the
embedding is parametric in it (modelled from the spec: the standard
unit-quaternion logarithm); the sign disambiguation and all field routing
are the source verbatim. -/
def CartesianPose.divByDuration (qlog : Quat → Quat) (p : CartesianPose)
    (dt_ns : ℤ) : Except SRError CartesianTwist :=
  if p.empty then .error .emptyState
  else
    let twist0 := CartesianTwist.mkEmpty p.name p.reference_frame
    let period : ℚ := (dt_ns : ℚ) / 1000000000
    let twist1 := twist0.set_linear_velocity (V3.divScalar p.position period)
    let log_q := qlog p.orientation
    let log_q2 := if p.orientation.dot log_q < 0 then log_q.negCoeffs else log_q
    let twist2 := twist1.set_angular_velocity
      (V3.divScalar (V3.scale 2 log_q2.vec) period)
    .ok twist2

/-- C2: dividing a non-empty pose by a duration yields a twist with the
same name and reference frame, linear velocity equal to the position
divided by the period in seconds, and angular velocity equal to twice the
vector part of the sign-disambiguated quaternion logarithm of the
orientation divided by the period; dividing an empty pose raises
EmptyState.  The statement holds for every choice of the quaternion
logarithm. -/
theorem cartesian_pose_div_duration :
    ∀ (qlog : Quat → Quat) (p : CartesianPose) (dt_ns : ℤ),
      (p.empty = true → CartesianPose.divByDuration qlog p dt_ns = .error .emptyState)
      ∧ (p.empty = false → ∃ t : CartesianTwist,
          CartesianPose.divByDuration qlog p dt_ns = .ok t
          ∧ t.name = p.name
          ∧ t.reference_frame = p.reference_frame
          ∧ t.empty = false
          ∧ t.linear_velocity = V3.divScalar p.position ((dt_ns : ℚ) / 1000000000)
          ∧ t.angular_velocity = V3.divScalar
              (V3.scale 2 (Quat.vec (if Quat.dot p.orientation (qlog p.orientation) < 0
                then Quat.negCoeffs (qlog p.orientation) else qlog p.orientation)))
              ((dt_ns : ℚ) / 1000000000)) := by
  intro qlog p dt_ns
  constructor
  · intro h
    simp [CartesianPose.divByDuration, h]
  · intro h
    unfold CartesianPose.divByDuration
    rw [if_neg (by simp [h])]
    exact ⟨_, rfl, rfl, rfl, rfl, rfl, rfl⟩

/-- C2 witness: the non-empty branch at a concrete pose, a two-second
duration and a concrete logarithm function. -/
theorem cartesian_pose_div_duration_witness :
    (CartesianPose.mk "ee" "base" false ⟨1, 2, 3⟩ ⟨1, 0, 0, 0⟩).empty = false
    ∧ (∃ t : CartesianTwist,
        CartesianPose.divByDuration (fun _ => ⟨0, 0, 0, 0⟩)
            (CartesianPose.mk "ee" "base" false ⟨1, 2, 3⟩ ⟨1, 0, 0, 0⟩) 2000000000
          = .ok t
        ∧ t.name = "ee"
        ∧ t.reference_frame = "base"
        ∧ t.empty = false
        ∧ t.linear_velocity = V3.divScalar ⟨1, 2, 3⟩ (((2000000000 : ℤ) : ℚ) / 1000000000)
        ∧ t.angular_velocity = V3.divScalar
            (V3.scale 2 (Quat.vec (if Quat.dot (Quat.mk 1 0 0 0)
                ((fun _ => Quat.mk 0 0 0 0) (Quat.mk 1 0 0 0)) < 0
              then Quat.negCoeffs ((fun _ => Quat.mk 0 0 0 0) (Quat.mk 1 0 0 0))
              else (fun _ => Quat.mk 0 0 0 0) (Quat.mk 1 0 0 0))))
            (((2000000000 : ℤ) : ℚ) / 1000000000)) :=
  ⟨rfl, (cartesian_pose_div_duration (fun _ => ⟨0, 0, 0, 0⟩)
      (CartesianPose.mk "ee" "base" false ⟨1, 2, 3⟩ ⟨1, 0, 0, 0⟩) 2000000000).2 rfl⟩

/-- Ellipsoid (geometry/Ellipsoid.hpp): a named shape with a center pose,
two axis lengths and a rotation angle. -/
structure Ellipsoid where
  name : String
  empty : Bool
  center_state : CartesianPose
  axis_lengths : List ℚ
  rotation_angle : ℚ
  deriving DecidableEq, Repr

/-- Shape accessor: the position of the center pose (Shape.hpp is not
under src; modelled from the spec: the center is a CartesianPose). -/
def Ellipsoid.get_center_position (e : Ellipsoid) : V3 :=
  e.center_state.position

/-- Ellipsoid.hpp line 172: read of one axis length; the C++ vector read
is unchecked, the model returns 0 past the end (an ellipsoid always holds
two axis lengths). -/
def Ellipsoid.get_axis_length (e : Ellipsoid) (index : Nat) : ℚ :=
  e.axis_lengths.getD index 0

/-- Ellipsoid.hpp line 186: read of the rotation angle. -/
def Ellipsoid.get_rotation_angle (e : Ellipsoid) : ℚ :=
  e.rotation_angle

/-- Ellipsoid.hpp lines 195 to 210: serialization to a plain vector of 6
values in the order center x, center y, center z, rotation angle, first
axis length, second axis length; an empty ellipsoid raises EmptyState. -/
def Ellipsoid.to_std_vector (e : Ellipsoid) : Except SRError (List ℚ) :=
  if e.empty then .error .emptyState
  else .ok [e.get_center_position.x, e.get_center_position.y, e.get_center_position.z,
    e.get_rotation_angle, e.get_axis_length 0, e.get_axis_length 1]

/-- C9: on a non-empty ellipsoid to_std_vector returns exactly the
6-element vector center x, center y, center z, rotation angle, first axis
length, second axis length, in that order; on an empty ellipsoid it raises
EmptyState. -/
theorem ellipsoid_to_std_vector_layout :
    ∀ e : Ellipsoid,
      (e.empty = true → e.to_std_vector = .error .emptyState)
      ∧ (e.empty = false → e.to_std_vector
          = .ok [e.center_state.position.x, e.center_state.position.y,
              e.center_state.position.z, e.rotation_angle,
              e.axis_lengths.getD 0 0, e.axis_lengths.getD 1 0]) := by
  intro e
  constructor <;> intro h <;>
    simp [Ellipsoid.to_std_vector, h, Ellipsoid.get_center_position,
      Ellipsoid.get_rotation_angle, Ellipsoid.get_axis_length]

/-- C9 witness: the layout at a concrete non-empty ellipsoid. -/
theorem ellipsoid_to_std_vector_layout_witness :
    (Ellipsoid.mk "obstacle" false (CartesianPose.mk "obstacle" "world" false
        ⟨1, 2, 3⟩ ⟨1, 0, 0, 0⟩) [4, 5] 6).empty = false
    ∧ (Ellipsoid.mk "obstacle" false (CartesianPose.mk "obstacle" "world" false
        ⟨1, 2, 3⟩ ⟨1, 0, 0, 0⟩) [4, 5] 6).to_std_vector
      = .ok [1, 2, 3, 6, 4, 5] :=
  ⟨rfl, (ellipsoid_to_std_vector_layout (Ellipsoid.mk "obstacle" false
      (CartesianPose.mk "obstacle" "world" false ⟨1, 2, 3⟩ ⟨1, 0, 0, 0⟩) [4, 5] 6)).2 rfl⟩

/-- Componentwise vector addition. -/
def V3.add (a b : V3) : V3 :=
  ⟨a.x + b.x, a.y + b.y, a.z + b.z⟩

/-- Componentwise vector subtraction. -/
def V3.sub (a b : V3) : V3 :=
  ⟨a.x - b.x, a.y - b.y, a.z - b.z⟩

/-- Hamilton product of two quaternions. -/
def Quat.mul (p q : Quat) : Quat :=
  ⟨p.w * q.w - p.x * q.x - p.y * q.y - p.z * q.z,
    p.w * q.x + p.x * q.w + p.y * q.z - p.z * q.y,
    p.w * q.y - p.x * q.z + p.y * q.w + p.z * q.x,
    p.w * q.z + p.x * q.y - p.y * q.x + p.z * q.w⟩

/-- Quaternion conjugate. -/
def Quat.conjugate (q : Quat) : Quat :=
  ⟨q.w, -q.x, -q.y, -q.z⟩

/-- Scaling of all four quaternion coefficients. -/
def Quat.scale (c : ℚ) (q : Quat) : Quat :=
  ⟨c * q.w, c * q.x, c * q.y, c * q.z⟩

/-- Dense 3x3 matrix. -/
structure Mat3 where
  a11 : ℚ
  a12 : ℚ
  a13 : ℚ
  a21 : ℚ
  a22 : ℚ
  a23 : ℚ
  a31 : ℚ
  a32 : ℚ
  a33 : ℚ
  deriving DecidableEq, Repr

/-- Matrix action on a 3-vector. -/
def Mat3.mulV3 (m : Mat3) (v : V3) : V3 :=
  ⟨m.a11 * v.x + m.a12 * v.y + m.a13 * v.z,
    m.a21 * v.x + m.a22 * v.y + m.a23 * v.z,
    m.a31 * v.x + m.a32 * v.y + m.a33 * v.z⟩

/-- Dense 6x6 matrix, held as its four 3x3 blocks; block00 is the block
at rows and columns 0 to 2, block33 at rows and columns 3 to 5. -/
structure Mat6 where
  block00 : Mat3
  block03 : Mat3
  block30 : Mat3
  block33 : Mat3
  deriving DecidableEq, Repr

/-- Modelled from the spec: the full CartesianState record (its class
implementation CartesianState.cpp is not under src): six 3-vectors, a
quaternion orientation, and the SpatialState identity fields. -/
structure CartesianState where
  name : String
  reference_frame : String
  empty : Bool
  position : V3
  orientation : Quat
  linear_velocity : V3
  angular_velocity : V3
  linear_acceleration : V3
  angular_acceleration : V3
  force : V3
  torque : V3
  deriving DecidableEq, Repr

/-- SpatialState view of a CartesianState, carrying the fields that the
frame-compatibility predicate reads. -/
def CartesianState.spatial (s : CartesianState) : SpatialState :=
  ⟨.CARTESIAN_STATE, s.name, s.reference_frame, s.empty⟩

/-- Modelled from the spec: CartesianState scalar scaling (absent from
src) first asserts non-empty, then multiplies every field block by the
scalar. -/
def CartesianState.mulScalarAssign (s : CartesianState) (lambda : ℚ) :
    Except SRError CartesianState :=
  if s.empty then .error .emptyState
  else .ok { s with
    position := V3.scale lambda s.position
    orientation := Quat.scale lambda s.orientation
    linear_velocity := V3.scale lambda s.linear_velocity
    angular_velocity := V3.scale lambda s.angular_velocity
    linear_acceleration := V3.scale lambda s.linear_acceleration
    angular_acceleration := V3.scale lambda s.angular_acceleration
    force := V3.scale lambda s.force
    torque := V3.scale lambda s.torque }

/-- Modelled from the spec: CartesianState addition (absent from src)
asserts that this and the other operand are non-empty and that the two are
frame-compatible, then adds field-wise on the non-orientation fields while
the orientation combines multiplicatively. -/
def CartesianState.addAssign (s other : CartesianState) : Except SRError CartesianState :=
  if s.empty then .error .emptyState
  else if other.empty then .error .emptyState
  else if !(s.spatial.is_compatible other.spatial) then .error .incompatibleStates
  else .ok { s with
    position := V3.add s.position other.position
    orientation := Quat.mul s.orientation other.orientation
    linear_velocity := V3.add s.linear_velocity other.linear_velocity
    angular_velocity := V3.add s.angular_velocity other.angular_velocity
    linear_acceleration := V3.add s.linear_acceleration other.linear_acceleration
    angular_acceleration := V3.add s.angular_acceleration other.angular_acceleration
    force := V3.add s.force other.force
    torque := V3.add s.torque other.torque }

/-- Modelled from the spec: CartesianState subtraction (absent from src),
same guards as addition; field-wise subtraction with the orientation of
the other operand conjugated in the quaternion product. -/
def CartesianState.subAssign (s other : CartesianState) : Except SRError CartesianState :=
  if s.empty then .error .emptyState
  else if other.empty then .error .emptyState
  else if !(s.spatial.is_compatible other.spatial) then .error .incompatibleStates
  else .ok { s with
    position := V3.sub s.position other.position
    orientation := Quat.mul s.orientation (Quat.conjugate other.orientation)
    linear_velocity := V3.sub s.linear_velocity other.linear_velocity
    angular_velocity := V3.sub s.angular_velocity other.angular_velocity
    linear_acceleration := V3.sub s.linear_acceleration other.linear_acceleration
    angular_acceleration := V3.sub s.angular_acceleration other.angular_acceleration
    force := V3.sub s.force other.force
    torque := V3.sub s.torque other.torque }

/-- Modelled from the spec: CartesianState distance (absent from src)
asserts that both operands are non-empty and frame-compatible before any
numeric work; the numeric result (a sum of Euclidean norms, which needs a
real square root) is parametric, the guards are concrete. -/
def CartesianState.dist (metric : CartesianState → CartesianState → ℚ)
    (s other : CartesianState) : Except SRError ℚ :=
  if s.empty then .error .emptyState
  else if other.empty then .error .emptyState
  else if !(s.spatial.is_compatible other.spatial) then .error .incompatibleStates
  else .ok (metric s other)

/-- CartesianAcceleration (CartesianAcceleration.cpp): the fields its
operators under src read. -/
structure CartesianAcceleration where
  name : String
  reference_frame : String
  empty : Bool
  linear_acceleration : V3
  angular_acceleration : V3
  deriving DecidableEq, Repr

/-- CartesianAcceleration.cpp lines 127 to 136: the 6x6 gain multiply
asserts non-empty, then applies the top-left block to the linear and the
bottom-right block to the angular acceleration. -/
def CartesianAcceleration.mulMatrixAssign (a : CartesianAcceleration) (lambda : Mat6) :
    Except SRError CartesianAcceleration :=
  if a.empty then .error .emptyState
  else .ok { a with
    empty := false
    linear_acceleration := lambda.block00.mulV3 a.linear_acceleration
    angular_acceleration := lambda.block33.mulV3 a.angular_acceleration }

/-- C4 counterexample: an empty JointState multiplied in place by a
correctly sized gain matrix does not raise EmptyState; the operation
succeeds, so not every operator that reads numeric fields guards on
emptiness. -/
theorem empty_state_guard_counterexample :
    (JointState.mkSized "robot" 1).empty = true
    ∧ isOkE ((JointState.mkSized "robot" 1).mulMatrixAssign
        [[1, 0, 0, 0], [0, 1, 0, 0], [0, 0, 1, 0], [0, 0, 0, 1]]) = true := by
  constructor
  · rfl
  · decide

/-- C4 amended: scalar scaling, addition, subtraction and distance raise
EmptyState before any computation when an operand (either one, for the
binary operators) is empty, on joint states and on Cartesian states (the
6x6 matrix gain of CartesianAcceleration under src; the CartesianState
core operators modelled from the spec); the one exception is the
JointState matrix-gain and array-gain multiplications, which perform no
emptiness check at all and can only fail with IncompatibleSize. -/
theorem empty_state_guard_coverage :
    (∀ (js : JointState) (lambda : ℚ), js.empty = true →
      js.mulScalarAssign lambda = .error .emptyState)
    ∧ (∀ A B : JointState, A.empty = true ∨ B.empty = true →
        A.addAssign B = .error .emptyState)
    ∧ (∀ A B : JointState, A.empty = true ∨ B.empty = true →
        A.subAssign B = .error .emptyState)
    ∧ (∀ (norm : List ℚ → ℚ) (A B : JointState) (svt : JointStateVariable),
        A.empty = true ∨ B.empty = true → A.dist norm B svt = .error .emptyState)
    ∧ (∀ (s : CartesianState) (lambda : ℚ), s.empty = true →
        s.mulScalarAssign lambda = .error .emptyState)
    ∧ (∀ A B : CartesianState, A.empty = true ∨ B.empty = true →
        A.addAssign B = .error .emptyState)
    ∧ (∀ A B : CartesianState, A.empty = true ∨ B.empty = true →
        A.subAssign B = .error .emptyState)
    ∧ (∀ (metric : CartesianState → CartesianState → ℚ) (A B : CartesianState),
        A.empty = true ∨ B.empty = true → A.dist metric B = .error .emptyState)
    ∧ (∀ (a : CartesianAcceleration) (m : Mat6), a.empty = true →
        a.mulMatrixAssign m = .error .emptyState)
    ∧ (∀ (js : JointState) (m : List (List ℚ)) (svt : JointStateVariable),
        js.multiplyStateVariableMatrix m svt ≠ .error .emptyState)
    ∧ (∀ (js : JointState) (arr : List ℚ) (svt : JointStateVariable),
        js.multiplyStateVariableArray arr svt ≠ .error .emptyState)
    ∧ (∀ (js : JointState) (m : List (List ℚ)), js.mulMatrixAssign m ≠ .error .emptyState)
    ∧ (∀ (js : JointState) (arr : List ℚ), js.mulArrayAssign arr ≠ .error .emptyState) := by
  refine ⟨?_, ?_, ?_, ?_, ?_, ?_, ?_, ?_, ?_, ?_, ?_, ?_, ?_⟩
  · intro js lambda h
    simp [JointState.mulScalarAssign, h]
  · intro A B h
    rcases h with h | h
    · simp [JointState.addAssign, h]
    · by_cases hA : A.empty = true
      · simp [JointState.addAssign, hA]
      · simp [JointState.addAssign, Bool.eq_false_iff.mpr hA, h]
  · intro A B h
    rcases h with h | h
    · simp [JointState.subAssign, h]
    · by_cases hA : A.empty = true
      · simp [JointState.subAssign, hA]
      · simp [JointState.subAssign, Bool.eq_false_iff.mpr hA, h]
  · intro norm A B svt h
    rcases h with h | h
    · simp [JointState.dist, h]
    · by_cases hA : A.empty = true
      · simp [JointState.dist, hA]
      · simp [JointState.dist, Bool.eq_false_iff.mpr hA, h]
  · intro s lambda h
    simp [CartesianState.mulScalarAssign, h]
  · intro A B h
    rcases h with h | h
    · simp [CartesianState.addAssign, h]
    · by_cases hA : A.empty = true
      · simp [CartesianState.addAssign, hA]
      · simp [CartesianState.addAssign, Bool.eq_false_iff.mpr hA, h]
  · intro A B h
    rcases h with h | h
    · simp [CartesianState.subAssign, h]
    · by_cases hA : A.empty = true
      · simp [CartesianState.subAssign, hA]
      · simp [CartesianState.subAssign, Bool.eq_false_iff.mpr hA, h]
  · intro metric A B h
    rcases h with h | h
    · simp [CartesianState.dist, h]
    · by_cases hA : A.empty = true
      · simp [CartesianState.dist, hA]
      · simp [CartesianState.dist, Bool.eq_false_iff.mpr hA, h]
  · intro a m h
    simp [CartesianAcceleration.mulMatrixAssign, h]
  · intro js m svt
    by_cases h : matRows m ≠ (js.get_state_variable svt).length
        ∨ matCols m ≠ (js.get_state_variable svt).length <;>
      simp [JointState.multiplyStateVariableMatrix, h]
  · intro js arr svt
    by_cases h : arr.length ≠ (js.get_state_variable svt).length <;>
      simp [JointState.multiplyStateVariableArray, h]
  · intro js m
    by_cases h : matRows m ≠ (js.get_state_variable .ALL).length
        ∨ matCols m ≠ (js.get_state_variable .ALL).length <;>
      simp [JointState.mulMatrixAssign, JointState.multiplyStateVariableMatrix, h]
  · intro js arr
    by_cases h : arr.length ≠ (js.get_state_variable .ALL).length <;>
      simp [JointState.mulArrayAssign, JointState.multiplyStateVariableArray, h]

/-- C4 witness: the guards fire on concrete states, both for an empty
first operand (scalar scaling) and for an empty second operand
(addition with a non-empty first operand). -/
theorem empty_state_guard_coverage_witness :
    (JointState.mkSized "arm" 2).empty = true
    ∧ (JointState.mkSized "arm" 2).mulScalarAssign 2 = .error .emptyState
    ∧ (JointState.Zero "arm" 2).empty = false
    ∧ (JointState.Zero "arm" 2).addAssign (JointState.mkSized "arm" 2)
        = .error .emptyState :=
  ⟨rfl, empty_state_guard_coverage.1 (JointState.mkSized "arm" 2) 2 rfl, rfl,
    empty_state_guard_coverage.2.1 (JointState.Zero "arm" 2) (JointState.mkSized "arm" 2)
      (Or.inr rfl)⟩

/-- C1: two spatial states are compatible iff the name of A equals the
reference frame of B, or the reference frame of A equals the name of B, or
the two reference frames are equal; is_incompatible is the negation of
that disjunction; the pair (ee in base) and (base in world) is compatible;
and compatibility is not transitive in general. -/
theorem spatial_state_compatibility :
    (∀ A B : SpatialState, A.is_compatible B = true ↔
      (A.name = B.reference_frame ∨ A.reference_frame = B.name
        ∨ A.reference_frame = B.reference_frame))
    ∧ (∀ A B : SpatialState, A.is_incompatible B = true ↔
      ¬(A.name = B.reference_frame ∨ A.reference_frame = B.name
        ∨ A.reference_frame = B.reference_frame))
    ∧ (SpatialState.is_compatible ⟨.SPATIAL_STATE, "ee", "base", false⟩
        ⟨.SPATIAL_STATE, "base", "world", false⟩ = true)
    ∧ (∃ A B C : SpatialState, A.is_compatible B = true ∧ B.is_compatible C = true
        ∧ A.is_compatible C = false) := by
  refine ⟨?_, ?_, by decide, ?_⟩
  · intro A B
    simp only [SpatialState.is_compatible, SpatialState.is_incompatible,
      Bool.not_eq_true', Bool.and_eq_false_iff, bne_eq_false_iff_eq, ne_eq,
      bne_iff_ne]
    tauto
  · intro A B
    simp only [SpatialState.is_incompatible, Bool.and_eq_true, bne_iff_ne, ne_eq]
    tauto
  · exact ⟨⟨.SPATIAL_STATE, "ee", "base", false⟩,
      ⟨.SPATIAL_STATE, "base", "world", false⟩,
      ⟨.SPATIAL_STATE, "c", "world", false⟩, by decide⟩

/-- C5 counterexample: two base States whose type tags differ are
nevertheless compatible, because the base-class is_incompatible returns
false unconditionally; so base-State compatibility does not hold exactly
when the type tags are equal. -/
theorem base_state_compatibility_ignores_type :
    State.is_compatible ⟨.STATE, "A", true⟩ ⟨.CARTESIAN_POSE, "B", true⟩ = true
    ∧ State.type ⟨.STATE, "A", true⟩ ≠ State.type ⟨.CARTESIAN_POSE, "B", true⟩ := by
  decide

/-- C5 amended: the base-State compatibility check does not inspect the
type tags at all; is_incompatible returns false for every pair of base
States, so every pair of base States is compatible. -/
theorem base_state_always_compatible :
    ∀ A B : State, A.is_incompatible B = false ∧ A.is_compatible B = true :=
  fun _ _ => ⟨rfl, rfl⟩

end StateRep
